import Mathlib

/-!
Shallow embedding of the agenda contact-directory service (src/app/main.py).

The service keeps a process-wide in-memory list of contacts (`contacts_db`)
and exposes HTTP handlers: `adicionar_contato` (POST /contatos),
`visualizar_contatos` (GET /contatos), `buscar_contato` (GET /contatos/{id}),
`health_check` (GET /health), `root` (GET /), `system_metrics`
(GET /system-metrics) and `system_metrics_prometheus`
(GET /system-metrics-prometheus).

Modelling conventions:
- Each handler is a function from the store (`List Contact`) and its other
  inputs to a pair of (response or error, updated store); the Python global
  list becomes explicit state passing.
- Request bodies are modelled as a small JSON value type; the pydantic
  schema validation of `ContactCreate` (FastAPI runs it before the handler
  and answers 422 on failure) is the function `validateContactCreate`.
- `str(uuid.uuid4())` is modelled by `uuidString`: a 128-bit random draw is
  an explicit `Nat` argument; the version/variant bit forcing of UUID
  version 4 and the hyphenated lowercase-hex rendering follow CPython's
  `uuid` module.
- `datetime.now()` is an abstract clock value passed as a `Nat` argument.
- `psutil` readings are inputs (`SystemSample`): the spec treats the OS as
  an external collaborator, values are read live at request time.
- Python `round(x, 2)` is `round2`: round half to even at two decimals,
  modelled over `ℚ`.
-/

namespace Agenda

/-- JSON values, as far as the request schema needs them. -/
inductive Json where
  | null : Json
  | str (s : String) : Json
  | num (q : ℚ) : Json
  | bool (b : Bool) : Json
  | obj (fields : List (String × Json)) : Json

/-- Request schema `ContactCreate` (src/app/main.py lines 81-85):
`nome : str`, `telefone : str`, `email : Optional[str] = None`,
`endereco : Optional[str] = None`. -/
structure ContactCreate where
  nome : String
  telefone : String
  email : Option String := none
  endereco : Option String := none
deriving Repr, DecidableEq

/-- Stored/response model `Contact` (src/app/main.py lines 87-93). -/
structure Contact where
  id : String
  nome : String
  telefone : String
  email : Option String := none
  endereco : Option String := none
  created_at : Nat
deriving Repr, DecidableEq

/-- Errors a request can end in: pydantic validation failure (FastAPI turns
it into a 422 response with field-level detail) or an explicit
`HTTPException(status_code, detail)`. -/
inductive RequestError where
  | validationError (errors : List (String × String)) : RequestError
  | httpException (statusCode : Nat) (detail : String) : RequestError
deriving Repr, DecidableEq

/-- HTTP status a `RequestError` is reported with: 422 for schema
validation failures, the carried code for `HTTPException`. -/
def RequestError.status : RequestError → Nat
  | .validationError _ => 422
  | .httpException s _ => s

/-- First value bound to key `k` in a JSON object's field list. -/
def getField (fields : List (String × Json)) (k : String) : Option Json :=
  (fields.find? (fun f => f.1 == k)).map (fun f => f.2)

/-- Pydantic validation of a required `str` field: absent is an error,
a JSON string (empty included) is accepted, any other type is an error. -/
def requiredStr (fields : List (String × Json)) (k : String) :
    Except (String × String) String :=
  match getField fields k with
  | none => .error (k, "missing")
  | some (.str s) => .ok s
  | some _ => .error (k, "string_type")

/-- Pydantic validation of an `Optional[str]` field with default `None`:
absent or JSON null gives `none`, a string gives `some`, other types are
errors. -/
def optionalStr (fields : List (String × Json)) (k : String) :
    Except (String × String) (Option String) :=
  match getField fields k with
  | none => .ok none
  | some .null => .ok none
  | some (.str s) => .ok (some s)
  | some _ => .error (k, "string_type")

/-- Error list contributed by one field's validation outcome. -/
def errList {α : Type} : Except (String × String) α → List (String × String)
  | .error e => [e]
  | .ok _ => []

/-- Validation of a POST /contatos body against `ContactCreate`: the body
must be a JSON object, `nome` and `telefone` must be JSON strings,
`email`/`endereco` may be absent, null or strings. All field errors are
collected, as pydantic does. -/
def validateContactCreate (body : Json) : Except RequestError ContactCreate :=
  match body with
  | .obj fields =>
    match requiredStr fields "nome", requiredStr fields "telefone",
          optionalStr fields "email", optionalStr fields "endereco" with
    | .ok n, .ok t, .ok e, .ok d =>
        .ok { nome := n, telefone := t, email := e, endereco := d }
    | rn, rt, re, rd =>
        .error (.validationError (errList rn ++ errList rt ++ errList re ++ errList rd))
  | _ => .error (.validationError [("body", "model_type")])

/-- Lowercase hex digit character for `n < 16` (as `"%x"` formatting). -/
def hexDigitChar (n : Nat) : Char :=
  if n < 10 then Char.ofNat (48 + n) else Char.ofNat (87 + n)

/-- Fixed-width big-endian hex rendering of `n` on `len` digits. -/
def toHexFixed : Nat → Nat → List Char
  | 0, _ => []
  | len + 1, n => toHexFixed len (n / 16) ++ [hexDigitChar (n % 16)]

/-- Bits cleared by CPython's `uuid.UUID(..., version=4)`: the four
version bits (48..51 counted from the top half) and the two variant bits. -/
def uuidClearMask : Nat := 2 ^ 128 - 1 - (0xf000 <<< 64) - (0xc000 <<< 48)

/-- Bits forced to one: version 4 and the RFC 4122 variant. -/
def uuidSetMask : Nat := (0x4000 <<< 64) ||| (0x8000 <<< 48)

/-- The integer value of `uuid.uuid4()` built from a 128-bit random draw
`r`: CPython masks the version and variant bits of the random bytes and
forces version 4 / variant 10. -/
def uuid4Int (r : Nat) : Nat := (r % 2 ^ 128 &&& uuidClearMask) ||| uuidSetMask

/-- `str` of a UUID integer: 32 lowercase hex digits in 8-4-4-4-12 groups
separated by hyphens. -/
def uuidFormat (u : Nat) : String :=
  let ds := toHexFixed 32 u
  String.mk (ds.take 8 ++ ('-' :: ((ds.drop 8).take 4 ++ ('-' :: ((ds.drop 12).take 4
    ++ ('-' :: ((ds.drop 16).take 4 ++ ('-' :: ds.drop 20))))))))

/-- `str(uuid.uuid4())` for random draw `r`. -/
def uuidString (r : Nat) : String := uuidFormat (uuid4Int r)

/-- Numeric value of a lowercase hex digit character. -/
def hexVal (c : Char) : Nat := if c ≤ '9' then c.toNat - 48 else c.toNat - 87

/-- Value of a big-endian hex digit list. -/
def fromHex (l : List Char) : Nat := l.foldl (fun a c => 16 * a + hexVal c) 0

/-- Value recovered from a hyphenated hex rendering. -/
def uuidDecode (s : String) : Nat := fromHex (s.data.filter (fun c => c != '-'))

/-- POST /contatos handler body (src/app/main.py lines 166-205): generate
`contact_id = str(uuid.uuid4())`, build the `Contact` with the payload
fields and `created_at = datetime.now()`, append it to `contacts_db` and
return it. `rand` is the 128-bit random draw behind `uuid.uuid4()`, `now`
the clock reading. -/
def adicionar_contato (db : List Contact) (contato : ContactCreate)
    (rand : Nat) (now : Nat) : Contact × List Contact :=
  let contact_id := uuidString rand
  let new_contact : Contact :=
    { id := contact_id, nome := contato.nome, telefone := contato.telefone,
      email := contato.email, endereco := contato.endereco, created_at := now }
  (new_contact, db ++ [new_contact])

/-- The full POST /contatos route: FastAPI validates the body against
`ContactCreate` first; on failure it answers 422 without running the
handler, on success it runs `adicionar_contato`. -/
def postContatos (db : List Contact) (body : Json) (rand : Nat) (now : Nat) :
    Except RequestError Contact × List Contact :=
  match validateContactCreate body with
  | .error e => (.error e, db)
  | .ok contato =>
    let r := adicionar_contato db contato rand now
    (.ok r.1, r.2)

/-- GET /contatos handler (src/app/main.py lines 207-213): returns
`contacts_db` as is. -/
def visualizar_contatos (db : List Contact) : List Contact × List Contact :=
  (db, db)

/-- GET /contatos/{contact_id} handler (src/app/main.py lines 215-244):
linear scan of `contacts_db`, returning the first contact whose `id`
equals `contact_id`; if the loop finds none, raise
`HTTPException(404, "Contato não encontrado")`. -/
def buscar_contato (db : List Contact) (contact_id : String) :
    Except RequestError Contact × List Contact :=
  match db.find? (fun contact => contact.id == contact_id) with
  | some contact => (.ok contact, db)
  | none => (.error (.httpException 404 "Contato não encontrado"), db)

/-- GET /health response shape (src/app/main.py lines 112-114). -/
structure HealthResponse where
  status : String
  service : String
  total_contatos : Nat
deriving Repr, DecidableEq

/-- GET /health handler: always answers
`{"status": "healthy", "service": "agenda-api", "total_contatos": len(contacts_db)}`. -/
def health_check (db : List Contact) : HealthResponse × List Contact :=
  ({ status := "healthy", service := "agenda-api", total_contatos := db.length }, db)

/-- GET / response shape (src/app/main.py lines 97-110). -/
structure RootResponse where
  message : String
  status : String
  endpoints : List (String × String)
deriving Repr, DecidableEq

/-- GET / handler: static welcome message, status and endpoint directory. -/
def root (db : List Contact) : RootResponse × List Contact :=
  ({ message := "Bem-vindo à API de Agenda!",
     status := "active",
     endpoints :=
       [("adicionar_contato", "POST /contatos"),
        ("listar_contatos", "GET /contatos"),
        ("buscar_contato", "GET /contatos/\x7bcontact_id\x7d"),
        ("health_check", "GET /health"),
        ("system_metrics", "GET /system-metrics"),
        ("prometheus_metrics", "GET /metrics")] }, db)

/-- One reading of the host OS resources, as psutil reports them at the
moment of the request: CPU percent, core count, virtual-memory totals and
percent, and disk usage of `/`. Byte counts and percents are rationals. -/
structure SystemSample where
  cpu_percent : ℚ
  cpu_count : Nat
  mem_total : ℚ
  mem_available : ℚ
  mem_used : ℚ
  mem_percent : ℚ
  disk_total : ℚ
  disk_used : ℚ
  disk_free : ℚ
deriving Repr, DecidableEq

/-- Python `round` to an integer: round half to even. -/
def roundHalfEven (x : ℚ) : ℤ :=
  let f := Rat.floor x
  let r := x - (f : ℚ)
  if r < 1 / 2 then f
  else if r > 1 / 2 then f + 1
  else if f % 2 = 0 then f else f + 1

/-- Python `round(x, 2)`. -/
def round2 (x : ℚ) : ℚ := (roundHalfEven (x * 100) : ℚ) / 100

/-- One gibibyte, the divisor `1024**3` of the byte-to-GB conversions. -/
def GB : ℚ := 1024 ^ 3

/-- GET /system-metrics response shape (src/app/main.py lines 116-141),
flattened: the `cpu`, `memory` and `disk` sub-objects become prefixed
fields. The timestamp string is omitted (pure formatting of the clock). -/
structure MetricsResponse where
  cpu_usage_percent : ℚ
  cpu_count : Nat
  memory_total_gb : ℚ
  memory_available_gb : ℚ
  memory_used_gb : ℚ
  memory_usage_percent : ℚ
  disk_total_gb : ℚ
  disk_used_gb : ℚ
  disk_free_gb : ℚ
  disk_usage_percent : ℚ
  contacts_count : Nat
deriving Repr, DecidableEq

/-- GET /system-metrics handler: GB conversions and the disk usage percent
go through `round(_, 2)`; `cpu_percent` and `memory.percent` are returned
as psutil produced them. -/
def system_metrics (db : List Contact) (s : SystemSample) :
    MetricsResponse × List Contact :=
  ({ cpu_usage_percent := s.cpu_percent,
     cpu_count := s.cpu_count,
     memory_total_gb := round2 (s.mem_total / GB),
     memory_available_gb := round2 (s.mem_available / GB),
     memory_used_gb := round2 (s.mem_used / GB),
     memory_usage_percent := s.mem_percent,
     disk_total_gb := round2 (s.disk_total / GB),
     disk_used_gb := round2 (s.disk_used / GB),
     disk_free_gb := round2 (s.disk_free / GB),
     disk_usage_percent := round2 (s.disk_used / s.disk_total * 100),
     contacts_count := db.length }, db)

/-- GET /system-metrics-prometheus handler (src/app/main.py lines
143-164): one `(metric_name, value)` line per metric, byte gauges raw
(no GB conversion), only the disk usage percent rounded. -/
def system_metrics_prometheus (db : List Contact) (s : SystemSample) :
    List (String × ℚ) × List Contact :=
  ([("system_cpu_usage_percent", s.cpu_percent),
    ("system_cpu_count", (s.cpu_count : ℚ)),
    ("system_memory_total_bytes", s.mem_total),
    ("system_memory_available_bytes", s.mem_available),
    ("system_memory_used_bytes", s.mem_used),
    ("system_memory_usage_percent", s.mem_percent),
    ("system_disk_total_bytes", s.disk_total),
    ("system_disk_used_bytes", s.disk_used),
    ("system_disk_free_bytes", s.disk_free),
    ("system_disk_usage_percent", round2 (s.disk_used / s.disk_total * 100)),
    ("agenda_contacts_total", (db.length : ℚ))], db)

/-- A run of creation requests: each carries the validated payload, the
random draw behind its uuid and its clock reading; the store starts at
`db` and each request appends through `adicionar_contato`. -/
def createRun : List Contact → List (ContactCreate × Nat × Nat) → List Contact
  | db, [] => db
  | db, req :: rest => createRun (adicionar_contato db req.1 req.2.1 req.2.2).2 rest

/-- The contact a creation request produces. -/
def createdContact (req : ContactCreate × Nat × Nat) : Contact :=
  { id := uuidString req.2.1, nome := req.1.nome, telefone := req.1.telefone,
    email := req.1.email, endereco := req.1.endereco, created_at := req.2.2 }

/-- A creation body field is absent or present with a non-string value
(the body not being a JSON object counts as well). -/
def fieldAbsentOrNonString (body : Json) (k : String) : Bool :=
  match body with
  | .obj fields =>
    match getField fields k with
    | some (.str _) => false
    | _ => true
  | _ => true

/-- A rational is a two-decimal value: an integer number of hundredths. -/
def isRounded2 (x : ℚ) : Prop := ∃ n : ℤ, x = (n : ℚ) / 100

/-- HTTP status of a request outcome: 200 on success, the error's status
otherwise. -/
def respStatus : Except RequestError Contact → Nat
  | .ok _ => 200
  | .error e => e.status

/-- Whether a request outcome is a schema-validation rejection. -/
def isValidationReject : Except RequestError Contact → Bool
  | .error (.validationError _) => true
  | _ => false

/-- Helper: `find?` skips a prefix in which no element satisfies the
predicate. -/
lemma find?_append_of_none {α : Type} (l₁ l₂ : List α) (p : α → Bool)
    (h : ∀ x ∈ l₁, ¬ p x = true) : (l₁ ++ l₂).find? p = l₂.find? p := by
  rw [List.find?_append, List.find?_eq_none.mpr h, Option.none_or]

/-- Helper: scanning `pre ++ c :: post` where nothing in `pre` matches and
`c` does returns `c` and leaves the store unchanged. -/
lemma buscar_contato_first (pre post : List Contact) (c : Contact) (cid : String)
    (hc : c.id = cid) (hpre : ∀ p ∈ pre, p.id ≠ cid) :
    buscar_contato (pre ++ c :: post) cid = (.ok c, pre ++ c :: post) := by
  have hfind : (pre ++ c :: post).find? (fun k => k.id == cid) = some c := by
    rw [find?_append_of_none _ _ _ (by intro x hx; simp [hpre x hx])]
    rw [List.find?_cons_of_pos _ (by simp [hc])]
  simp [buscar_contato, hfind]

/-- Helper: one create appends exactly the created contact. -/
lemma adicionar_contato_snd (db : List Contact) (c : ContactCreate) (r t : Nat) :
    (adicionar_contato db c r t).2 = db ++ [(adicionar_contato db c r t).1] := rfl

/-- Helper: a run of creates appends the created contacts in request
order. -/
lemma createRun_eq (reqs : List (ContactCreate × Nat × Nat)) :
    ∀ db, createRun db reqs = db ++ reqs.map createdContact := by
  induction reqs with
  | nil => intro db; simp [createRun]
  | cons hd tl ih =>
      intro db
      simp only [createRun]
      rw [ih]
      have h1 : (adicionar_contato db hd.1 hd.2.1 hd.2.2).2 = db ++ [createdContact hd] := rfl
      rw [h1, List.append_assoc]
      simp

/-- C2: creating a contact and immediately looking it up by the returned
id gives back the very record the creation returned, with the store in the
post-creation state; the hypothesis is that the fresh uuid does not
collide with any stored id (what the 122 random bits of uuid4 provide). -/
theorem c2_create_then_lookup (db : List Contact) (c : ContactCreate) (r nowT : Nat)
    (h : db.all (fun old => old.id != uuidString r) = true) :
    buscar_contato (adicionar_contato db c r nowT).2 ((adicionar_contato db c r nowT).1).id
      = (.ok ((adicionar_contato db c r nowT).1), (adicionar_contato db c r nowT).2) := by
  have hid : ((adicionar_contato db c r nowT).1).id = uuidString r := rfl
  rw [adicionar_contato_snd, hid]
  exact buscar_contato_first db [] _ _ rfl
    (by simp only [List.all_eq_true, bne_iff_ne] at h; exact h)

/-- C2 witness: a concrete creation on the empty store, looked up by the
returned id. -/
theorem c2_create_then_lookup_witness :
    (([] : List Contact).all
        (fun old => old.id != uuidString 0) = true) ∧
    buscar_contato (adicionar_contato [] { nome := "Ana", telefone := "123" } 0 0).2
        ((adicionar_contato [] { nome := "Ana", telefone := "123" } 0 0).1).id
      = (.ok ((adicionar_contato [] { nome := "Ana", telefone := "123" } 0 0).1),
         (adicionar_contato [] { nome := "Ana", telefone := "123" } 0 0).2) :=
  ⟨rfl, c2_create_then_lookup [] { nome := "Ana", telefone := "123" } 0 0 rfl⟩

/-- C3: after any run of successful creations starting from the empty
store, GET /contatos returns exactly the created contacts, one per
request, in creation order, unfiltered and unmodified. -/
theorem c3_list_after_creates (reqs : List (ContactCreate × Nat × Nat)) :
    (visualizar_contatos (createRun [] reqs)).1 = reqs.map createdContact ∧
    (visualizar_contatos (createRun [] reqs)).1.length = reqs.length := by
  have h := createRun_eq reqs []
  refine ⟨by simpa [visualizar_contatos] using h, ?_⟩
  simp [visualizar_contatos, h]

/-- C4: looking up an id held by no stored contact returns no contact: the
request fails with `HTTPException(404, "Contato não encontrado")` and the
store is unchanged. -/
theorem c4_lookup_miss_404 (db : List Contact) (cid : String)
    (h : db.all (fun k => k.id != cid) = true) :
    buscar_contato db cid = (.error (.httpException 404 "Contato não encontrado"), db) := by
  have hfind : db.find? (fun k => k.id == cid) = none := by
    rw [List.find?_eq_none]
    intro x hx
    simp only [List.all_eq_true, bne_iff_ne] at h
    simp [h x hx]
  simp [buscar_contato, hfind]

/-- C4 witness: lookup of a never-issued id in a one-element store. -/
theorem c4_lookup_miss_404_witness :
    ([({ id := "a1", nome := "Ana", telefone := "123", created_at := 0 } : Contact)].all
        (fun k => k.id != "zzz") = true) ∧
    buscar_contato [{ id := "a1", nome := "Ana", telefone := "123", created_at := 0 }] "zzz"
      = (.error (.httpException 404 "Contato não encontrado"),
         [{ id := "a1", nome := "Ana", telefone := "123", created_at := 0 }]) :=
  ⟨by decide,
   c4_lookup_miss_404 [{ id := "a1", nome := "Ana", telefone := "123", created_at := 0 }]
     "zzz" (by decide)⟩

/-- C5: lookup is a linear scan in creation order returning the first
contact whose id matches: for a store `pre ++ c :: post` where nothing in
`pre` matches and `c` does, the answer is `c`, whatever `post` holds —
including later contacts with the same id. -/
theorem c5_first_match_in_creation_order (pre post : List Contact) (c : Contact)
    (cid : String) (hc : c.id = cid) (hpre : pre.all (fun p => p.id != cid) = true) :
    (buscar_contato (pre ++ c :: post) cid).1 = .ok c := by
  rw [buscar_contato_first pre post c cid hc
    (by simp only [List.all_eq_true, bne_iff_ne] at hpre; exact hpre)]

/-- C5 witness: two stored contacts share an id; the scan returns the
earlier one. -/
theorem c5_first_match_witness :
    (({ id := "dup", nome := "first", telefone := "1", created_at := 0 } : Contact).id = "dup") ∧
    ([({ id := "other", nome := "zero", telefone := "0", created_at := 0 } : Contact)].all
        (fun p => p.id != "dup") = true) ∧
    (buscar_contato
        [{ id := "other", nome := "zero", telefone := "0", created_at := 0 },
         { id := "dup", nome := "first", telefone := "1", created_at := 1 },
         { id := "dup", nome := "second", telefone := "2", created_at := 2 }] "dup").1
      = .ok { id := "dup", nome := "first", telefone := "1", created_at := 1 } :=
  ⟨rfl, by decide,
   c5_first_match_in_creation_order
     [{ id := "other", nome := "zero", telefone := "0", created_at := 0 }]
     [{ id := "dup", nome := "second", telefone := "2", created_at := 2 }]
     { id := "dup", nome := "first", telefone := "1", created_at := 1 } "dup" rfl (by decide)⟩

/-- Helper: `hexVal` inverts `hexDigitChar` on digit values. -/
lemma hexVal_hexDigitChar : ∀ d, d < 16 → hexVal (hexDigitChar d) = d := by decide

/-- Helper: hex digit characters are never the hyphen. -/
lemma hexDigitChar_ne_hyphen : ∀ d, d < 16 → (hexDigitChar d != '-') = true := by decide

/-- Helper: every character of a hex rendering is a non-hyphen. -/
lemma mem_toHexFixed_ne_hyphen (k : Nat) : ∀ n c, c ∈ toHexFixed k n → (c != '-') = true := by
  induction k with
  | zero => intro n c h; simp [toHexFixed] at h
  | succ k ih =>
      intro n c h
      simp only [toHexFixed, List.mem_append, List.mem_singleton] at h
      rcases h with h | h
      · exact ih _ _ h
      · subst h; exact hexDigitChar_ne_hyphen _ (Nat.mod_lt _ (by norm_num))

/-- Helper: folding the hex digits of `n` on `k` positions back into a
number from accumulator `a` gives `a * 16 ^ k + n`. -/
lemma foldl_hex_toHexFixed (k : Nat) :
    ∀ n a, n < 16 ^ k →
      List.foldl (fun a c => 16 * a + hexVal c) a (toHexFixed k n) = a * 16 ^ k + n := by
  induction k with
  | zero =>
      intro n a h
      interval_cases n
      simp [toHexFixed]
  | succ k ih =>
      intro n a h
      have hdiv : n / 16 < 16 ^ k := by
        apply Nat.div_lt_of_lt_mul
        rw [Nat.pow_succ] at h
        omega
      simp only [toHexFixed, List.foldl_append, List.foldl_cons, List.foldl_nil]
      rw [ih _ _ hdiv, hexVal_hexDigitChar _ (Nat.mod_lt _ (by norm_num)),
        Nat.pow_succ, ← Nat.mul_assoc]
      generalize a * 16 ^ k = am
      omega

/-- Helper: `fromHex` inverts `toHexFixed`. -/
lemma fromHex_toHexFixed (k n : Nat) (h : n < 16 ^ k) : fromHex (toHexFixed k n) = n := by
  have h0 := foldl_hex_toHexFixed k n 0 h
  simpa [fromHex] using h0

/-- Helper: dropping the hyphens of the 8-4-4-4-12 grouping of a
hyphen-free list recovers the list. -/
lemma filter_hyphen_chunks (l : List Char) (hp : ∀ c ∈ l, (c != '-') = true) :
    ((l.take 8 ++ ('-' :: ((l.drop 8).take 4 ++ ('-' :: ((l.drop 12).take 4
      ++ ('-' :: ((l.drop 16).take 4 ++ ('-' :: l.drop 20)))))))).filter
        (fun c => c != '-')) = l := by
  have e1 : (l.drop 12) = (l.drop 8).drop 4 := by rw [List.drop_drop]
  have e2 : (l.drop 16) = (l.drop 12).drop 4 := by rw [List.drop_drop]
  have e3 : (l.drop 20) = (l.drop 16).drop 4 := by rw [List.drop_drop]
  have hf1 : ((l.take 8).filter (fun c => c != '-')) = l.take 8 :=
    List.filter_eq_self.mpr (fun c hc => hp c (List.take_subset _ _ hc))
  have hf2 : (((l.drop 8).take 4).filter (fun c => c != '-')) = (l.drop 8).take 4 :=
    List.filter_eq_self.mpr (fun c hc => hp c (List.drop_subset _ _ (List.take_subset _ _ hc)))
  have hf3 : (((l.drop 12).take 4).filter (fun c => c != '-')) = (l.drop 12).take 4 :=
    List.filter_eq_self.mpr (fun c hc => hp c (List.drop_subset _ _ (List.take_subset _ _ hc)))
  have hf4 : (((l.drop 16).take 4).filter (fun c => c != '-')) = (l.drop 16).take 4 :=
    List.filter_eq_self.mpr (fun c hc => hp c (List.drop_subset _ _ (List.take_subset _ _ hc)))
  have hf5 : ((l.drop 20).filter (fun c => c != '-')) = l.drop 20 :=
    List.filter_eq_self.mpr (fun c hc => hp c (List.drop_subset _ _ hc))
  rw [List.filter_append, List.filter_cons_of_neg (by decide),
      List.filter_append, List.filter_cons_of_neg (by decide),
      List.filter_append, List.filter_cons_of_neg (by decide),
      List.filter_append, List.filter_cons_of_neg (by decide),
      hf1, hf2, hf3, hf4, hf5]
  rw [e3, List.take_append_drop, e2, List.take_append_drop, e1, List.take_append_drop,
      List.take_append_drop]

/-- Helper: `uuidDecode` recovers the UUID integer from its rendering, so
the rendering is injective below `2 ^ 128`. -/
lemma uuidFormat_decode (u : Nat) (h : u < 2 ^ 128) : uuidDecode (uuidFormat u) = u := by
  have h16 : u < 16 ^ 32 := by
    rw [show (16 : Nat) ^ 32 = 2 ^ 128 by norm_num]
    exact h
  simp only [uuidDecode, uuidFormat]
  rw [filter_hyphen_chunks _ (mem_toHexFixed_ne_hyphen 32 u)]
  exact fromHex_toHexFixed 32 u h16

/-- Helper: a uuid4 integer fits in 128 bits. -/
lemma uuid4Int_lt (r : Nat) : uuid4Int r < 2 ^ 128 := by
  apply Nat.or_lt_two_pow
  · exact Nat.and_lt_two_pow _ (by decide)
  · decide

/-- Helper: the rendered uuid string is never empty. -/
lemma uuidFormat_ne_empty (u : Nat) : uuidFormat u ≠ "" := by
  intro h
  have hd := congrArg String.data h
  simp only [uuidFormat] at hd
  rcases List.append_eq_nil.mp hd with ⟨_, h2⟩
  exact List.cons_ne_nil _ _ h2

/-- C6: creating contacts through `adicionar_contato` from the empty
store, with the UUID values the masked random draws produce pairwise
distinct (what 122 random bits make overwhelmingly likely, the negligible
collision the spec accepts), every created contact carries a non-empty id
and no id repeats an earlier one. The id is `str(uuid.uuid4())` by
construction of `adicionar_contato` — the request payload carries no id
field at all. -/
theorem c6_ids_nonempty_and_unique (reqs : List (ContactCreate × Nat × Nat))
    (h : (reqs.map (fun req => uuid4Int req.2.1)).Nodup) :
    ((createRun [] reqs).map Contact.id).Nodup ∧
    ((createRun [] reqs).all (fun c => c.id != "") = true) := by
  have hrun : createRun [] reqs = reqs.map createdContact := by
    simpa using createRun_eq reqs []
  constructor
  · rw [hrun, List.map_map]
    have hcomp : (Contact.id ∘ createdContact) =
        (uuidFormat ∘ fun req : ContactCreate × Nat × Nat => uuid4Int req.2.1) := rfl
    rw [hcomp, ← List.map_map]
    refine h.map_on ?_
    intro x hx y hy hxy
    simp only [List.mem_map] at hx hy
    obtain ⟨a, _, ha⟩ := hx
    obtain ⟨b, _, hb⟩ := hy
    have hxlt : x < 2 ^ 128 := ha ▸ uuid4Int_lt _
    have hylt : y < 2 ^ 128 := hb ▸ uuid4Int_lt _
    have hdec := congrArg uuidDecode hxy
    rwa [uuidFormat_decode x hxlt, uuidFormat_decode y hylt] at hdec
  · rw [hrun]
    simp only [List.all_eq_true, bne_iff_ne]
    intro c hc
    simp only [List.mem_map] at hc
    obtain ⟨req, _, hreq⟩ := hc
    have hid : c.id = uuidFormat (uuid4Int req.2.1) := by rw [← hreq]; rfl
    rw [hid]
    exact uuidFormat_ne_empty _

/-- C6 witness: two concrete creations with distinct random draws. -/
theorem c6_ids_nonempty_and_unique_witness :
    (([(({ nome := "Ana", telefone := "1" } : ContactCreate), 0, 0),
       (({ nome := "Bob", telefone := "2" } : ContactCreate), 1, 1)].map
         (fun req => uuid4Int req.2.1)).Nodup) ∧
    (((createRun [] [(({ nome := "Ana", telefone := "1" } : ContactCreate), 0, 0),
        (({ nome := "Bob", telefone := "2" } : ContactCreate), 1, 1)]).map Contact.id).Nodup ∧
     ((createRun [] [(({ nome := "Ana", telefone := "1" } : ContactCreate), 0, 0),
        (({ nome := "Bob", telefone := "2" } : ContactCreate), 1, 1)]).all
          (fun c => c.id != "") = true)) :=
  ⟨by decide,
   c6_ids_nonempty_and_unique
     [(({ nome := "Ana", telefone := "1" } : ContactCreate), 0, 0),
      (({ nome := "Bob", telefone := "2" } : ContactCreate), 1, 1)] (by decide)⟩

/-- C8: GET /health and GET / always answer (they are total and return no
error), leave the store exactly as it was for every store contents, and
the health payload's `total_contatos` is the store's current size. -/
theorem c8_health_root_no_side_effects (db : List Contact) :
    (health_check db).2 = db ∧ (root db).2 = db ∧
    (health_check db).1.total_contatos = db.length ∧
    (health_check db).1.status = "healthy" ∧
    (root db).1.status = "active" :=
  ⟨rfl, rfl, rfl, rfl, rfl⟩

/-- C9: a successful create rewrites the store to exactly the old store
with the one new record appended: size grows by one and the length-long
prefix — every previously stored contact, in position — is untouched. -/
theorem c9_create_appends_one (db : List Contact) (c : ContactCreate) (r t : Nat) :
    (adicionar_contato db c r t).2 = db ++ [(adicionar_contato db c r t).1] ∧
    (adicionar_contato db c r t).2.length = db.length + 1 ∧
    (adicionar_contato db c r t).2.take db.length = db := by
  refine ⟨rfl, by simp [adicionar_contato], ?_⟩
  rw [adicionar_contato_snd]
  exact List.take_left db _

/-- Helper: a required string field that is absent or bound to a
non-string value makes `requiredStr` fail. -/
lemma requiredStr_error (fields : List (String × Json)) (k : String)
    (h : fieldAbsentOrNonString (.obj fields) k = true) :
    ∃ e, requiredStr fields k = .error e := by
  simp only [fieldAbsentOrNonString] at h
  rcases hg : getField fields k with _ | j
  · exact ⟨(k, "missing"), by simp [requiredStr, hg]⟩
  · rw [hg] at h
    cases j with
    | str s => simp at h
    | null => exact ⟨(k, "string_type"), by simp [requiredStr, hg]⟩
    | num q => exact ⟨(k, "string_type"), by simp [requiredStr, hg]⟩
    | bool b => exact ⟨(k, "string_type"), by simp [requiredStr, hg]⟩
    | obj f => exact ⟨(k, "string_type"), by simp [requiredStr, hg]⟩

/-- Helper: a body whose `nome` or `telefone` is absent or non-string
fails `ContactCreate` validation. -/
lemma validateContactCreate_error (body : Json)
    (h : fieldAbsentOrNonString body "nome" = true ∨
         fieldAbsentOrNonString body "telefone" = true) :
    ∃ errs, validateContactCreate body = .error (.validationError errs) := by
  cases body with
  | null => exact ⟨_, rfl⟩
  | str s => exact ⟨_, rfl⟩
  | num q => exact ⟨_, rfl⟩
  | bool b => exact ⟨_, rfl⟩
  | obj fields =>
      rcases h with h | h
      · obtain ⟨e, he⟩ := requiredStr_error fields "nome" h
        simp only [validateContactCreate]
        rw [he]
        rcases requiredStr fields "telefone" with e2 | s2 <;>
          rcases optionalStr fields "email" with e3 | s3 <;>
            rcases optionalStr fields "endereco" with e4 | s4 <;> exact ⟨_, rfl⟩
      · obtain ⟨e, he⟩ := requiredStr_error fields "telefone" h
        simp only [validateContactCreate]
        rw [he]
        rcases requiredStr fields "nome" with e1 | s1 <;>
          rcases optionalStr fields "email" with e3 | s3 <;>
            rcases optionalStr fields "endereco" with e4 | s4 <;> exact ⟨_, rfl⟩

/-- C1 (amended): a creation body whose `nome` or `telefone` is absent or
of the wrong (non-string) type is rejected by schema validation as a 422
before the handler runs, and the store is untouched. An empty string,
however, passes the schema (see the counterexample). -/
theorem c1_validation_rejects_before_handler (db : List Contact) (body : Json)
    (r t : Nat)
    (h : fieldAbsentOrNonString body "nome" = true ∨
         fieldAbsentOrNonString body "telefone" = true) :
    isValidationReject (postContatos db body r t).1 = true ∧
    respStatus (postContatos db body r t).1 = 422 ∧
    (postContatos db body r t).2 = db := by
  obtain ⟨errs, he⟩ := validateContactCreate_error body h
  refine ⟨?_, ?_, ?_⟩ <;>
    simp [postContatos, he, isValidationReject, respStatus, RequestError.status]

/-- C1 witness: a body with `telefone` only (no `nome`) on the empty
store. -/
theorem c1_validation_rejects_witness :
    (fieldAbsentOrNonString (Json.obj [("telefone", Json.str "123")]) "nome" = true ∨
     fieldAbsentOrNonString (Json.obj [("telefone", Json.str "123")]) "telefone" = true) ∧
    (isValidationReject
        (postContatos [] (Json.obj [("telefone", Json.str "123")]) 0 0).1 = true ∧
     respStatus (postContatos [] (Json.obj [("telefone", Json.str "123")]) 0 0).1 = 422 ∧
     (postContatos [] (Json.obj [("telefone", Json.str "123")]) 0 0).2 = []) :=
  ⟨Or.inl rfl,
   c1_validation_rejects_before_handler [] (Json.obj [("telefone", Json.str "123")])
     0 0 (Or.inl rfl)⟩

/-- C1 counterexample: the claim also demands rejection when `nome` is the
empty string, but pydantic's `str` accepts `""`: the request succeeds and
the store grows from empty to size one. -/
theorem c1_counterexample_empty_name_accepted :
    (postContatos [] (Json.obj [("nome", Json.str ""), ("telefone", Json.str "123")]) 0 0).1
      = .ok { id := uuidString 0, nome := "", telefone := "123", created_at := 0 } ∧
    (postContatos [] (Json.obj [("nome", Json.str ""), ("telefone", Json.str "123")]) 0 0).2.length
      = 1 :=
  ⟨rfl, rfl⟩

/-- Helper: `round(x, 2)` lands on an integer number of hundredths. -/
lemma isRounded2_round2 (x : ℚ) : isRounded2 (round2 x) :=
  ⟨roundHalfEven (x * 100), rfl⟩

/-- A psutil reading whose memory percent is 100/3 (33.333... %). -/
def sampleThird : SystemSample :=
  { cpu_percent := 25, cpu_count := 4, mem_total := 8589934592,
    mem_available := 2863311530, mem_used := 5726623062, mem_percent := 100 / 3,
    disk_total := 107374182400, disk_used := 35791394133, disk_free := 71582788267 }

/-- C7 counterexample: `memory.percent` is copied into the
/system-metrics response without any rounding, so with the reading
`sampleThird` the reported memory usage percent is 100/3, which is not a
two-decimal value. -/
theorem c7_counterexample_memory_percent_unrounded :
    ¬ isRounded2 ((system_metrics [] sampleThird).1.memory_usage_percent) := by
  have hv : (system_metrics [] sampleThird).1.memory_usage_percent = 100 / 3 := rfl
  rw [hv]
  rintro ⟨n, hn⟩
  rw [div_eq_div_iff (by norm_num) (by norm_num)] at hn
  have h3 : (10000 : ℤ) = n * 3 := by exact_mod_cast hn
  omega

/-- C7 (amended): in /system-metrics every byte-to-GB conversion and the
disk usage percent are rounded to two decimals, while the CPU and memory
usage percents are passed through exactly as psutil reported them; in
/system-metrics-prometheus only the disk usage percent is rounded and the
CPU and memory percents are again passed through raw (byte gauges are
exposed unconverted). -/
theorem c7_rounding_as_implemented (db : List Contact) (s : SystemSample) :
    isRounded2 (system_metrics db s).1.memory_total_gb ∧
    isRounded2 (system_metrics db s).1.memory_available_gb ∧
    isRounded2 (system_metrics db s).1.memory_used_gb ∧
    isRounded2 (system_metrics db s).1.disk_total_gb ∧
    isRounded2 (system_metrics db s).1.disk_used_gb ∧
    isRounded2 (system_metrics db s).1.disk_free_gb ∧
    isRounded2 (system_metrics db s).1.disk_usage_percent ∧
    (system_metrics db s).1.cpu_usage_percent = s.cpu_percent ∧
    (system_metrics db s).1.memory_usage_percent = s.mem_percent ∧
    ((system_metrics_prometheus db s).1.lookup "system_disk_usage_percent"
      = some (round2 (s.disk_used / s.disk_total * 100))) ∧
    ((system_metrics_prometheus db s).1.lookup "system_memory_usage_percent"
      = some s.mem_percent) ∧
    ((system_metrics_prometheus db s).1.lookup "system_cpu_usage_percent"
      = some s.cpu_percent) :=
  ⟨isRounded2_round2 _, isRounded2_round2 _, isRounded2_round2 _,
   isRounded2_round2 _, isRounded2_round2 _, isRounded2_round2 _,
   isRounded2_round2 _, rfl, rfl, rfl, rfl, rfl⟩

/-- C10: the two read endpoints never modify the store: GET /contatos for
any store, and GET /contatos/{id} for any store and any id — also when
the scan misses and the handler raises the 404. -/
theorem c10_reads_leave_store_unchanged (db : List Contact) (cid : String) :
    (visualizar_contatos db).2 = db ∧ (buscar_contato db cid).2 = db := by
  refine ⟨rfl, ?_⟩
  rcases hf : db.find? (fun contact => contact.id == cid) with _ | c <;>
    simp [buscar_contato, hf]

end Agenda
